import Mathlib

/-!
Verification of the course-delivery client: progress calculator,
certification dashboard state machine, analytics counting, legacy lesson
gating, overall-progress averaging, and error handling at fetch/mutate
call sites. Definitions are shallow embeddings of the TypeScript source
(CourseDashboard.tsx, CoursePage.tsx, SubsectionPage.tsx,
ProgressAnalytics.tsx, the users-management and profile screens);
JavaScript number arithmetic on counts is modelled exactly over ℚ/ℕ,
with Math.round x = ⌊x + 1/2⌋.
-/

/-- JavaScript truthiness of a nullable string: null and the empty string
are falsy, every other string is truthy. -/
def jsTruthy : Option String → Bool
  | none => false
  | some s => !s.isEmpty

/-- JavaScript `a || b` on nullable strings: returns `a` when truthy,
otherwise `b`. -/
def jsOr (a b : Option String) : Option String :=
  if jsTruthy a then a else b

/-- One row of the user_progress table as selected by
CourseDashboard.fetchUserProgress: course_id, subsection_id, lesson_id,
completed_at (nullable timestamp). -/
structure ProgressRecord where
  course_id : String
  subsection_id : Option String
  lesson_id : Option String
  completed_at : Option String
deriving DecidableEq

/-- Section of a course, as nested in CourseDashboard.fetchCourses: only
its list of subsection ids matters for the progress totals. -/
structure SectionRec where
  subsections : List String
deriving DecidableEq

/-- Course with nested content, as built by CourseDashboard.fetchCourses. -/
structure CourseRec where
  id : String
  level : Nat
  sections : List SectionRec
deriving DecidableEq

/-- Total item count of a course: CourseDashboard.fetchCourses sums the
subsection list lengths over the sections (0 when there are no sections),
stored as the field _totalItems. -/
def totalItems (course : CourseRec) : Nat :=
  (course.sections.map (fun s => s.subsections.length)).sum

/-- The distinct completed item ids of a course, from
CourseDashboard.getCourseProgress: filter the progress rows to this course
with a truthy completed_at, take subsection_id || lesson_id, drop falsy
ids, and collect the distinct values (the JS Set). -/
def completedItemIds (courseId : String) (userProgress : List ProgressRecord) :
    List String :=
  ((((userProgress.filter
        (fun p => p.course_id == courseId && jsTruthy p.completed_at)).map
          (fun p => jsOr p.subsection_id p.lesson_id)).filter jsTruthy).filterMap
            (fun o => o)).dedup

/-- The percentage computation shared by CourseDashboard.getCourseProgress
and CoursePage.fetchCourseData:
`totalCount > 0 ? Math.round((completedCount / totalCount) * 100) : 0`.
Over exact rationals, Math.round x = ⌊x + 1/2⌋, and
⌊100 c / t + 1/2⌋ = (200 c + t) / (2 t) in natural division. -/
def percentageOf (completedCount totalCount : Nat) : Nat :=
  if 0 < totalCount then (200 * completedCount + totalCount) / (2 * totalCount)
  else 0

/-- Output record of CourseDashboard.getCourseProgress. -/
structure CourseProgress where
  percentage : Nat
  completed : Nat
  total : Nat
deriving DecidableEq

/-- CourseDashboard.getCourseProgress: zero output when the course has no
items, otherwise the deduplicated completed count, the total, and the
rounded percentage. -/
def getCourseProgress (course : CourseRec) (userProgress : List ProgressRecord) :
    CourseProgress :=
  if totalItems course = 0 then { percentage := 0, completed := 0, total := 0 }
  else
    { percentage :=
        percentageOf (completedItemIds course.id userProgress).length
          (totalItems course)
      completed := (completedItemIds course.id userProgress).length
      total := totalItems course }

/-- Certification workflow row, per user and course level
(CourseDashboard.tsx interface CertificationWorkflow). -/
structure CertificationWorkflow where
  current_step : String
  exam_status : String
  admin_approval_status : String
  contract_status : String
  subscription_status : String
deriving DecidableEq

/-- CourseDashboard.getCurrentDashboardState: the certification dashboard
state, derived from the current course, the fetched user progress rows and
the per-level workflow map (none when no workflow row exists for a level). -/
def getCurrentDashboardState (currentCourse : Option CourseRec)
    (userProgress : List ProgressRecord)
    (certificationWorkflows : Nat → Option CertificationWorkflow) : String :=
  match currentCourse with
  | none => "new-user"
  | some course =>
    if userProgress.length = 0 then "new-user"
    else
      match certificationWorkflows course.level with
      | none =>
        if 0 < (getCourseProgress course userProgress).percentage then
          "training-progress"
        else "new-user"
      | some workflow =>
        if workflow.subscription_status = "active" then "completed"
        else if workflow.contract_status = "signed" then "subscription"
        else if workflow.admin_approval_status = "approved" then "contract"
        else if workflow.exam_status = "passed" then "contract"
        else if (getCourseProgress course userProgress).percentage = 100 then "exam"
        else if 0 < (getCourseProgress course userProgress).percentage then
          "training-progress"
        else "new-user"

/-- Rounding bridge: the natural-division form (2 a + n) / (2 n) used in the
embeddings equals Math.round of the exact quotient a / n, for n > 0. -/
theorem natRoundDiv_eq_round (a n : ℕ) (hn : 0 < n) :
    (((2 * a + n) / (2 * n) : ℕ) : ℤ) = round ((a : ℚ) / n) := by
  have hn0 : (n : ℚ) ≠ 0 := Nat.cast_ne_zero.mpr hn.ne'
  have h1 : (a : ℚ) / n + 1 / 2 = ((2 * a + n : ℕ) : ℚ) / ((2 * n : ℕ) : ℚ) := by
    push_cast
    field_simp
    ring
  rw [round_eq, h1, Rat.floor_natCast_div_natCast]
  exact (Int.ofNat_tdiv _ _).symm

/-- C1: for every completedCount and totalCount, the progress calculator
returns percentage = round(100 * completedCount / totalCount), and returns
percentage = 0 whenever totalCount = 0; moreover getCourseProgress wires
exactly this calculator to its own completed and total counts. -/
theorem percentage_is_rounded_ratio :
    (∀ completedCount totalCount : ℕ,
      ((percentageOf completedCount totalCount : ℤ) =
        if totalCount = 0 then 0
        else round ((100 * completedCount : ℚ) / totalCount))) ∧
    (∀ (course : CourseRec) (userProgress : List ProgressRecord),
      (getCourseProgress course userProgress).percentage =
        percentageOf (getCourseProgress course userProgress).completed
          (getCourseProgress course userProgress).total) := by
  constructor
  · intro c t
    by_cases ht : t = 0
    · simp [percentageOf, ht]
    · have hpos : 0 < t := Nat.pos_of_ne_zero ht
      rw [if_neg ht, percentageOf, if_pos hpos]
      have h := natRoundDiv_eq_round (100 * c) t hpos
      have harg : ((100 * c : ℕ) : ℚ) / (t : ℚ) = (100 * (c : ℚ)) / t := by
        push_cast
        ring_nf
      rw [harg] at h
      have hnum : 2 * (100 * c) + t = 200 * c + t := by ring
      rw [hnum] at h
      exact h
  · intro course userProgress
    by_cases h : totalItems course = 0
    · simp [getCourseProgress, h, percentageOf]
    · simp [getCourseProgress, h]

/-- C7: for fixed totalCount > 0, the computed percentage is monotone
non-decreasing in completedCount. -/
theorem percentage_monotone (totalCount c1 c2 : ℕ) (ht : 0 < totalCount)
    (hc : c1 ≤ c2) : percentageOf c1 totalCount ≤ percentageOf c2 totalCount := by
  rw [percentageOf, percentageOf, if_pos ht, if_pos ht]
  exact Nat.div_le_div_right (by omega)

/-- Witness for C7 at totalCount = 3, c1 = 1, c2 = 2. -/
theorem percentage_monotone_witness :
    percentageOf 1 3 ≤ percentageOf 2 3 :=
  percentage_monotone 3 1 2 (by decide) (by decide)

/-- Demo course with a single section holding a single subsection. -/
def demoCourse : CourseRec :=
  { id := "course-1", level := 1, sections := [{ subsections := ["sub-1"] }] }

/-- Demo progress row completing subsection sub-1 of course-1. -/
def demoProgressRow : ProgressRecord :=
  { course_id := "course-1", subsection_id := some "sub-1",
    lesson_id := none, completed_at := some "2024-01-01T00:00:00Z" }

/-- Demo workflow whose subscription is active while every other status is
still at an early value. -/
def demoWorkflowActive : CertificationWorkflow :=
  { current_step := "subscription", exam_status := "failed",
    admin_approval_status := "rejected", contract_status := "pending",
    subscription_status := "active" }

/-- C2: whenever some progress rows were fetched and the workflow of the
current course level has subscription_status = "active", the dashboard
state is "completed", whatever the other workflow fields and the course
completion percentage are. -/
theorem subscription_active_gives_completed (course : CourseRec)
    (userProgress : List ProgressRecord)
    (wfs : Nat → Option CertificationWorkflow) (w : CertificationWorkflow)
    (hup : userProgress ≠ [])
    (hw : wfs course.level = some w)
    (hsub : w.subscription_status = "active") :
    getCurrentDashboardState (some course) userProgress wfs = "completed" := by
  cases userProgress with
  | nil => exact absurd rfl hup
  | cons p ps => simp [getCurrentDashboardState, hw, hsub]

/-- Witness for C2 with a failed exam, a rejected approval and a pending
contract. -/
theorem subscription_active_gives_completed_witness :
    getCurrentDashboardState (some demoCourse) [demoProgressRow]
      (fun l => if l = 1 then some demoWorkflowActive else none) = "completed" :=
  subscription_active_gives_completed demoCourse [demoProgressRow] _
    demoWorkflowActive (List.cons_ne_nil _ _) rfl rfl

/-- Demo workflow with a passed exam and a pending contract. -/
def demoWorkflowExamPassed : CertificationWorkflow :=
  { current_step := "contract", exam_status := "passed",
    admin_approval_status := "pending", contract_status := "pending",
    subscription_status := "inactive" }

/-- C3: with a passed exam, a pending contract, and a subscription that is
not active, the dashboard state is "contract" for every admin-approval
value and every completion percentage, 100 included. -/
theorem exam_passed_gives_contract (course : CourseRec)
    (userProgress : List ProgressRecord)
    (wfs : Nat → Option CertificationWorkflow) (w : CertificationWorkflow)
    (hup : userProgress ≠ [])
    (hw : wfs course.level = some w)
    (hexam : w.exam_status = "passed")
    (hcontract : w.contract_status = "pending")
    (hsub : w.subscription_status ≠ "active") :
    getCurrentDashboardState (some course) userProgress wfs = "contract" := by
  cases userProgress with
  | nil => exact absurd rfl hup
  | cons p ps =>
    by_cases hadmin : w.admin_approval_status = "approved"
    · simp [getCurrentDashboardState, hw, hsub, hcontract, hadmin]
    · simp [getCurrentDashboardState, hw, hsub, hcontract, hadmin, hexam]

/-- Witness for C3 on a course whose only subsection is completed, so the
completion percentage is 100. -/
theorem exam_passed_gives_contract_witness :
    getCurrentDashboardState (some demoCourse) [demoProgressRow]
      (fun l => if l = 1 then some demoWorkflowExamPassed else none) =
      "contract" :=
  exam_passed_gives_contract demoCourse [demoProgressRow] _
    demoWorkflowExamPassed (List.cons_ne_nil _ _) rfl rfl rfl (by decide)

/-- Helper: with no fetched progress rows the computed percentage is 0. -/
theorem getCourseProgress_nil_percentage (course : CourseRec) :
    (getCourseProgress course []).percentage = 0 := by
  by_cases h : totalItems course = 0
  · simp [getCourseProgress, h]
  · have hpos : 0 < totalItems course := Nat.pos_of_ne_zero h
    simp [getCourseProgress, h, completedItemIds, percentageOf, hpos]
    exact Nat.div_eq_of_lt (by omega)

/-- C6: when no workflow row exists for the current course level, a
completion percentage of 0 yields the state "new-user" and a completion
percentage of 45 yields the state "training-progress". -/
theorem no_workflow_states (course : CourseRec)
    (userProgress : List ProgressRecord)
    (wfs : Nat → Option CertificationWorkflow)
    (hw : wfs course.level = none) :
    ((getCourseProgress course userProgress).percentage = 0 →
      getCurrentDashboardState (some course) userProgress wfs = "new-user") ∧
    ((getCourseProgress course userProgress).percentage = 45 →
      getCurrentDashboardState (some course) userProgress wfs =
        "training-progress") := by
  constructor
  · intro hp
    cases userProgress with
    | nil => simp [getCurrentDashboardState]
    | cons p ps => simp [getCurrentDashboardState, hw, hp]
  · intro hp
    cases userProgress with
    | nil =>
      rw [getCourseProgress_nil_percentage] at hp
      exact absurd hp (by decide)
    | cons p ps => simp [getCurrentDashboardState, hw, hp]

/-- Demo course with one section of twenty subsections. -/
def demoCourse20 : CourseRec :=
  { id := "course-20", level := 1,
    sections := [{ subsections :=
      ["a01", "a02", "a03", "a04", "a05", "a06", "a07", "a08", "a09", "a10",
       "a11", "a12", "a13", "a14", "a15", "a16", "a17", "a18", "a19", "a20"] }] }

/-- Demo progress: nine distinct completed subsections of demoCourse20,
so the percentage is round(900 / 20) = 45. -/
def demoProgress9 : List ProgressRecord :=
  ["a01", "a02", "a03", "a04", "a05", "a06", "a07", "a08", "a09"].map
    (fun s =>
      { course_id := "course-20", subsection_id := some s,
        lesson_id := none, completed_at := some "2024-01-01T00:00:00Z" })

/-- Witness for C6 on the 45 percent branch. -/
theorem no_workflow_states_witness :
    getCurrentDashboardState (some demoCourse20) demoProgress9
      (fun _ => none) = "training-progress" :=
  (no_workflow_states demoCourse20 demoProgress9 (fun _ => none) rfl).2
    (by decide)

/-- C4 counterexample: with no workflow row and a completion percentage of
100 the code returns "training-progress", not "exam": the rule-5 claim
fails in the no-workflow case. -/
theorem exam_rule_no_workflow_counterexample :
    (getCourseProgress demoCourse [demoProgressRow]).percentage = 100 ∧
    getCurrentDashboardState (some demoCourse) [demoProgressRow]
      (fun _ => none) = "training-progress" ∧
    "training-progress" ≠ "exam" :=
  ⟨by decide, by decide, by decide⟩

/-- C4 amended: when a workflow row exists whose subscription is not
active, contract not signed, approval not approved and exam not passed,
a completion percentage of 100 yields the state "exam"; with no workflow
row, 100 percent yields "training-progress" instead (see the
counterexample). -/
theorem exam_rule_amended (course : CourseRec)
    (userProgress : List ProgressRecord)
    (wfs : Nat → Option CertificationWorkflow) (w : CertificationWorkflow)
    (hup : userProgress ≠ [])
    (hw : wfs course.level = some w)
    (hsub : w.subscription_status ≠ "active")
    (hcon : w.contract_status ≠ "signed")
    (hadm : w.admin_approval_status ≠ "approved")
    (hexam : w.exam_status ≠ "passed")
    (hp : (getCourseProgress course userProgress).percentage = 100) :
    getCurrentDashboardState (some course) userProgress wfs = "exam" := by
  cases userProgress with
  | nil => exact absurd rfl hup
  | cons p ps => simp [getCurrentDashboardState, hw, hsub, hcon, hadm, hexam, hp]

/-- Demo workflow still at the start of the pipeline. -/
def demoWorkflowFresh : CertificationWorkflow :=
  { current_step := "training", exam_status := "not_taken",
    admin_approval_status := "pending", contract_status := "pending",
    subscription_status := "inactive" }

/-- Witness for the amended C4: a fresh workflow and a fully completed
course give the state "exam". -/
theorem exam_rule_amended_witness :
    getCurrentDashboardState (some demoCourse) [demoProgressRow]
      (fun l => if l = 1 then some demoWorkflowFresh else none) = "exam" :=
  exam_rule_amended demoCourse [demoProgressRow] _ demoWorkflowFresh
    (List.cons_ne_nil _ _) rfl (by decide) (by decide) (by decide) (by decide)
    (by decide)

/-- One row of the user_progress table as selected by
ProgressAnalytics.fetchProgressData for the completed-subsection counts:
user_id, course_id, subsection_id, completed_at. -/
structure AnalyticsRow where
  user_id : String
  course_id : String
  subsection_id : Option String
  completed_at : Option String
deriving DecidableEq

/-- The reduce key used by ProgressAnalytics.fetchProgressData:
the template string user_id-course_id. -/
def completedKey (r : AnalyticsRow) : String :=
  r.user_id ++ "-" ++ r.course_id

/-- ProgressAnalytics.fetchProgressData userCompletions: among the rows
whose completed_at and subsection_id are non-null (the query filters),
every row with the given key adds 1 — rows are counted, not distinct
subsections. -/
def userCompletions (rows : List AnalyticsRow) (uid cid : String) : Nat :=
  ((rows.filter (fun r => r.completed_at.isSome && r.subsection_id.isSome)).filter
    (fun r => completedKey r == uid ++ "-" ++ cid)).length

/-- Spec-side count, following the invariant of the data-model section:
the number of distinct subsection identifiers among the rows of this user
and course whose completion timestamp is non-null. -/
def specDistinctCompletedCount (rows : List AnalyticsRow) (uid cid : String) :
    Nat :=
  (((rows.filter
      (fun r => r.user_id == uid && r.course_id == cid &&
        r.completed_at.isSome)).filterMap (fun r => r.subsection_id)).dedup).length

/-- Two analytics rows for the same user, course and subsection, both with
a non-null completion timestamp. -/
def demoAnalyticsRows : List AnalyticsRow :=
  [{ user_id := "user-1", course_id := "course-1",
     subsection_id := some "sub-1", completed_at := some "2024-01-01T00:00:00Z" },
   { user_id := "user-1", course_id := "course-1",
     subsection_id := some "sub-1", completed_at := some "2024-01-02T00:00:00Z" }]

/-- C5: on two rows completing the same subsection, the analytics counter
reports 2 while the distinct-subsection count of the spec invariant is 1;
the dashboard counter (completedItemIds) does deduplicate and reports 1. -/
theorem analytics_counts_duplicate_rows :
    userCompletions demoAnalyticsRows "user-1" "course-1" = 2 ∧
    specDistinctCompletedCount demoAnalyticsRows "user-1" "course-1" = 1 ∧
    (completedItemIds "course-1" [demoProgressRow, demoProgressRow]).length = 1 :=
  ⟨by decide, by decide, by decide⟩

/-- Lesson row of the legacy lessons structure (CoursePage.tsx). -/
structure Lesson where
  id : String
deriving DecidableEq

/-- CoursePage.isLessonAccessible: the first lesson is always accessible,
any later lesson only when the previous lesson id is in the completed set
(false when there is no previous lesson). -/
def isLessonAccessible (lessons : List Lesson) (completedItems : List String)
    (lessonIndex : Nat) : Bool :=
  if lessonIndex = 0 then true
  else
    match lessons[lessonIndex - 1]? with
    | some previousLesson => completedItems.contains previousLesson.id
    | none => false

/-- C9: in the legacy lessons view, index 0 is always accessible, and for
every index i > 0 within the list, lesson i is accessible exactly when
lesson i - 1 is in the completed set. -/
theorem lesson_accessibility (lessons : List Lesson)
    (completedItems : List String) :
    isLessonAccessible lessons completedItems 0 = true ∧
    ∀ i : Nat, 0 < i → ∀ hi : i < lessons.length,
      isLessonAccessible lessons completedItems i =
        completedItems.contains (lessons.get ⟨i - 1, by omega⟩).id := by
  constructor
  · simp [isLessonAccessible]
  · intro i hpos hi
    rw [isLessonAccessible, if_neg (by omega)]
    rw [List.getElem?_eq_getElem (by omega : i - 1 < lessons.length)]
    rfl

/-- Demo legacy lessons list. -/
def demoLessons : List Lesson := [{ id := "l1" }, { id := "l2" }]

/-- Witness for C9: with lesson l1 completed, the lesson at index 1 is
accessible. -/
theorem lesson_accessibility_witness :
    isLessonAccessible demoLessons ["l1"] 1 = true := by
  have h := (lesson_accessibility demoLessons ["l1"]).2 1 (by decide) (by decide)
  rw [h]
  decide

/-- One of the progress rows aggregated for the overall-progress figure:
only the nullable integer progress_percentage column matters. -/
structure UserProgressRow where
  progress_percentage : Option Nat
deriving DecidableEq

/-- The overall progress of a user, as computed identically by
Profile.calculateOverallProgress and UsersManagement.fetchUsers: 0 when
the user has no progress rows, otherwise Math.round of the arithmetic
mean of progress_percentage over the rows, a null percentage read as 0
(the JS expression progress_percentage || 0). -/
def calculateOverallProgress (userProgress : List UserProgressRow) : Nat :=
  if userProgress.length = 0 then 0
  else
    (2 * (userProgress.map (fun p => p.progress_percentage.getD 0)).sum +
        userProgress.length) /
      (2 * userProgress.length)

/-- C10: the overall progress equals the rounded arithmetic mean of the
progress_percentage values (null as 0) and is 0 on an empty row set. -/
theorem overall_progress_is_rounded_mean :
    ∀ userProgress : List UserProgressRow,
      ((calculateOverallProgress userProgress : ℤ) =
        if userProgress.length = 0 then 0
        else round
          ((((userProgress.map (fun p => p.progress_percentage.getD 0)).sum :
              ℕ) : ℚ) /
            userProgress.length)) := by
  intro rows
  by_cases h : rows.length = 0
  · simp [calculateOverallProgress, h]
  · rw [if_neg h, calculateOverallProgress, if_neg h]
    exact natRoundDiv_eq_round _ _ (Nat.pos_of_ne_zero h)

/-- Toast notification, as passed to the toast hook. -/
structure ToastMsg where
  title : String
  description : String
deriving DecidableEq

/-- CourseDashboard.fetchUserProgress as a state transformer: the query
either yields rows (possibly null, read as the empty list) or fails; on
success the state is replaced and no toast is shown, on failure the catch
block only logs to the console, so the prior state is kept and no toast is
shown. -/
def fetchUserProgress (result : Except String (Option (List ProgressRecord)))
    (prior : List ProgressRecord) : List ProgressRecord × List ToastMsg :=
  match result with
  | Except.ok data => (data.getD [], [])
  | Except.error _ => (prior, [])

/-- SubsectionPage.handleCompleteSubsection as a state transformer on the
isCompleted flag: on upsert success the flag becomes true with a success
toast, on failure the catch block keeps the flag and shows an error
toast. -/
def handleCompleteSubsection (upsertResult : Except String Unit)
    (isCompleted : Bool) (subsectionTitle : String) : Bool × List ToastMsg :=
  match upsertResult with
  | Except.ok _ =>
    (true,
      [{ title := "Subsection Completed!",
         description := "Great job completing \"" ++ subsectionTitle ++ "\"" }])
  | Except.error _ =>
    (isCompleted,
      [{ title := "Error",
         description :=
           "Failed to mark subsection as complete. Please try again." }])

/-- C8 counterexample: a failing user-progress fetch keeps the prior state
but emits no user-facing notification at all, so not every caught failure
is surfaced as a notification. -/
theorem fetch_user_progress_error_silent :
    fetchUserProgress (Except.error "network error") [demoProgressRow] =
      ([demoProgressRow], []) :=
  rfl

/-- C8 amended: every caught failure leaves the previously held state
unchanged; the subsection-completion mutation surfaces an error toast,
but the dashboard user-progress fetch only logs to the console and emits
no notification. -/
theorem failures_keep_state (e : String) (prior : List ProgressRecord)
    (isCompleted : Bool) (subsectionTitle : String) :
    fetchUserProgress (Except.error e) prior = (prior, []) ∧
    handleCompleteSubsection (Except.error e) isCompleted subsectionTitle =
      (isCompleted,
        [{ title := "Error",
           description :=
             "Failed to mark subsection as complete. Please try again." }]) :=
  ⟨rfl, rfl⟩
